import Mathlib

/-!
Verification of the lifecycle/concurrency core of a cross-platform client
library: the process-wide instance registry, the client-instance teardown
coordinator, the asynchronous operation bridge surface, and the strict
thread-handle lifecycle.

The registry and client-instance operations are shallow embeddings of
`firestore/src/common/firestore.cc`.  Apps (owner contexts) are identified
by their pointer value, modelled as `Nat` with `0` standing for `nullptr`.
The map `g_firestores : std::map<App*, Firestore*>*` is modelled as
`Option (List (App × Firestore))`: `none` is the null pointer, `some m`
the allocated map with association list `m` (keys unique by construction,
as in `std::map`).
-/

namespace FirebaseCore

/-- An `App*` owner-context pointer; `0` stands for `nullptr`. -/
abbrev App := Nat

/-- The backend implementation object (`FirestoreInternal`): its owning app
and whether backend-specific setup succeeded (`initialized()`). -/
structure FirestoreInternal where
  app : App
  initializedFlag : Bool
deriving DecidableEq, Repr

/-- `FirestoreInternal::initialized()`. -/
def FirestoreInternal.initialized (i : FirestoreInternal) : Bool :=
  i.initializedFlag

/-- The public client object (`Firestore`): exclusively owns an
`internal_` pointer, which is `none` after `DeleteInternal` released it. -/
structure Firestore where
  internal : Option FirestoreInternal
deriving DecidableEq, Repr

/-- The global registry `g_firestores`: `none` when the backing map has not
been allocated (or has been destroyed when empty), `some m` otherwise. -/
abbrev Registry := Option (List (App × Firestore))

/-- Contents of the registry seen through `FirestoreCache()`: allocates an
empty map when the global pointer is null. -/
def cacheOf (reg : Registry) : List (App × Firestore) :=
  reg.getD []

/-- `std::map::emplace`: inserts only when the key is absent. -/
def emplace (cache : List (App × Firestore)) (k : App) (v : Firestore) :
    List (App × Firestore) :=
  if (List.lookup k cache).isSome then cache else (k, v) :: cache

/-- `std::map::erase(k)`: removes the entry for key `k`. -/
def eraseKey (cache : List (App × Firestore)) (k : App) :
    List (App × Firestore) :=
  cache.filter (fun kv => kv.1 ≠ k)

/-- `InitResult` reported through `init_result_out`. -/
inductive InitResult where
  | success
  | failedMissingDependency
deriving DecidableEq, Repr

/-- `CheckInitialized`: missing-dependency failure when the backend did not
initialize. -/
def checkInitialized (i : FirestoreInternal) : InitResult :=
  if i.initialized then .success else .failedMissingDependency

/-- `Firestore::app()`: `nullptr` (0) once `internal_` is released. -/
def Firestore.appOf (f : Firestore) : App :=
  match f.internal with
  | none => 0
  | some i => i.app

/-- Whether a client instance currently holds an initialized backend. -/
def Firestore.isInitialized (f : Firestore) : Bool :=
  match f.internal with
  | none => false
  | some i => i.initialized

/-- Outcome of a registry-level creation call (`GetInstance` /
`CreateFirestore`): an `InvalidArgument` throw (registry unchanged), a
fatal `SIMPLE_HARD_ASSERT` failure, or a normal return carrying the
returned pointer, the value written through `init_result_out`, the list of
instances deleted during the call, and the registry afterwards. -/
inductive RegOutcome where
  | thrown (reg : Registry)
  | fatal (msg : String)
  | ok (ret : Option Firestore) (initOut : InitResult)
      (deleted : List Firestore) (reg : Registry)
deriving DecidableEq, Repr

/-- `Firestore::AddFirestoreToCache`: checks `initialized`, either deletes
the instance and returns null with `kInitResultFailedMissingDependency`,
or registers it under `firestore->app()` and returns it. -/
def addFirestoreToCache (f : Firestore) (reg : Registry) : RegOutcome :=
  match f.internal with
  | none => .fatal "null internal dereference"
  | some i =>
    let initResult := checkInitialized i
    if initResult = .success then
      .ok (some f) initResult [] (some (emplace (cacheOf reg) f.appOf f))
    else
      .ok none initResult [f] reg

/-- `Firestore::GetInstance(app, init_result_out)`: validates the app,
takes the global lock, returns a cached instance when present, otherwise
constructs a fresh instance (whose backend reports `newInit` from
`initialized()`) and defers to `AddFirestoreToCache`. -/
def getInstance (app : App) (reg : Registry) (newInit : Bool) : RegOutcome :=
  if app = 0 then .thrown reg
  else
    match List.lookup app (cacheOf reg) with
    | some f => .ok (some f) .success [] (some (cacheOf reg))
    | none => addFirestoreToCache ⟨some ⟨app, newInit⟩⟩ (some (cacheOf reg))

/-- `Firestore::CreateFirestore(app, internal, init_result_out)`: validates
the app, hard-asserts a non-null `internal` and the absence of a cached
instance for `app`, then defers to `AddFirestoreToCache`. -/
def createFirestore (app : App) (internal : Option FirestoreInternal)
    (reg : Registry) : RegOutcome :=
  if app = 0 then .thrown reg
  else
    match internal with
    | none => .fatal "Provided FirestoreInternal must not be null."
    | some i =>
      match List.lookup app (cacheOf reg) with
      | some _ => .fatal "Firestore must not be created already"
      | none => addFirestoreToCache ⟨some i⟩ (some (cacheOf reg))

/-- A registry is well formed when every registered instance still holds an
initialized backend (the only insertion point, `AddFirestoreToCache`,
checks this). -/
def wfRegistry (reg : Registry) : Prop :=
  ∀ kv ∈ cacheOf reg, Firestore.isInitialized kv.2 = true

/-! ### Teardown paths

`Firestore::DeleteInternal`, `Firestore::Terminate`, the destructor and
the owner-destruction cleanup callback.  Each is embedded as a function
that also emits the ordered trace of lifecycle events it performs. -/

/-- Observable lifecycle events of one teardown path, in program order. -/
inductive Event where
  | logWarning
  | unregisterCleanup
  | clearListeners
  | cleanupAll
  | releaseBackend
  | eraseFromCache
  | backendTerminate
deriving DecidableEq, Repr

/-- `Firestore::DeleteInternal`: under the global lock, returns at once
when `internal_` is already released; otherwise unregisters from the
cleanup notifier (only when initialized), clears the listeners, runs the
queued cleanups, deletes `internal_`, erases the cache entry for its app
and destroys the map when that left it empty. -/
def deleteInternal (f : Firestore) (reg : Registry) :
    Firestore × Registry × List Event :=
  match f.internal with
  | none => (f, reg, [])
  | some i =>
    let evs := (if i.initialized then [Event.unregisterCleanup] else [])
      ++ [Event.clearListeners, Event.cleanupAll, Event.releaseBackend,
          Event.eraseFromCache]
    let cache := eraseKey (cacheOf reg) i.app
    (⟨none⟩, if cache = [] then none else some cache, evs)

/-- The destructor `Firestore::~Firestore` simply runs `DeleteInternal`. -/
def destructor (f : Firestore) (reg : Registry) :
    Firestore × Registry × List Event :=
  deleteInternal f reg

/-- The cleanup callback registered with the owner's `CleanupNotifier`:
warns that the instance outlived its app, then runs `DeleteInternal`. -/
def ownerDestroyedCallback (f : Firestore) (reg : Registry) :
    Firestore × Registry × List Event :=
  let r := deleteInternal f reg
  (r.1, r.2.1, Event.logWarning :: r.2.2)

/-- State of a future as observed synchronously at the call site. -/
inductive FutureVal where
  | failed
  | fromBackend (call : Nat)
deriving DecidableEq, Repr

/-- Tags for the distinct backend (`FirestoreInternal`) calls a public
operation can issue; values only need to be distinguishable. -/
def callRunTransaction : Nat := 0
def callDisableNetwork : Nat := 1
def callEnableNetwork : Nat := 2
def callTerminate : Nat := 3
def callWaitForPendingWrites : Nat := 4
def callClearPersistence : Nat := 5
def callLoadBundle : Nat := 6
def callLoadBundleWithProgress : Nat := 7
def callNamedQuery : Nat := 8
def callCollection : Nat := 9
def callDocument : Nat := 10
def callCollectionGroup : Nat := 11
def callAddSnapshotsInSyncListener : Nat := 12
def callSettings : Nat := 13
def callBatch : Nat := 14

/-- `Firestore::Terminate`: fails fast when `internal_` is released;
otherwise erases this app's cache entry (through `FirestoreCache()`,
which allocates the map when null, and with no empty-map check) and then
issues the backend `Terminate` call. -/
def terminate (f : Firestore) (reg : Registry) :
    FutureVal × Registry × List Event :=
  match f.internal with
  | none => (.failed, reg, [])
  | some i =>
    (.fromBackend callTerminate, some (eraseKey (cacheOf reg) i.app),
      [Event.eraseFromCache, Event.backendTerminate])

/-! ### Public operation surface

Each public member function is embedded as a pure function returning the
value observed by the caller together with the list of backend calls it
issued.  A null `const char*` argument is `none`; an empty C string is
`some ""`.  An empty `std::function` callback is `false`. -/

/-- Result of a public operation: an `InvalidArgument` throw, or a normal
return; both record the backend calls issued before returning. -/
inductive OpResult (α : Type) where
  | thrown (msg : String) (calls : List Nat)
  | ok (v : α) (calls : List Nat)
deriving DecidableEq, Repr

/-- A domain value returned by a non-future operation: either the
default-constructed value `{}` or one produced by a backend call. -/
inductive ValueResult where
  | defaultVal
  | backendVal (call : Nat)
deriving DecidableEq, Repr

/-- `Firestore::Collection(const char*)`. -/
def collection (f : Firestore) (path : Option String) : OpResult ValueResult :=
  match path with
  | none => .thrown "Collection path cannot be null." []
  | some p =>
    if p = "" then .thrown "Collection path cannot be empty." []
    else match f.internal with
      | none => .ok .defaultVal []
      | some _ => .ok (.backendVal callCollection) [callCollection]

/-- `Firestore::Document(const char*)`. -/
def document (f : Firestore) (path : Option String) : OpResult ValueResult :=
  match path with
  | none => .thrown "Document path cannot be null." []
  | some p =>
    if p = "" then .thrown "Document path cannot be empty." []
    else match f.internal with
      | none => .ok .defaultVal []
      | some _ => .ok (.backendVal callDocument) [callDocument]

/-- `Firestore::CollectionGroup(const char*)`. -/
def collectionGroup (f : Firestore) (id : Option String) :
    OpResult ValueResult :=
  match id with
  | none => .thrown "Collection ID cannot be null." []
  | some s =>
    if s = "" then .thrown "Collection ID cannot be empty." []
    else match f.internal with
      | none => .ok .defaultVal []
      | some _ => .ok (.backendVal callCollectionGroup) [callCollectionGroup]

/-- `Firestore::CollectionGroup(const std::string&)`: unlike the
`const char*` overload (and unlike the `std::string` overloads of
`Collection` and `Document`, which delegate to their validating
`const char*` overloads), this overload performs no validation and
forwards `collection_id.c_str()` straight to the backend. -/
def collectionGroupString (f : Firestore) (_id : String) :
    OpResult ValueResult :=
  match f.internal with
  | none => .ok .defaultVal []
  | some _ => .ok (.backendVal callCollectionGroup) [callCollectionGroup]

/-- `Firestore::settings()`. -/
def settingsOp (f : Firestore) : OpResult ValueResult :=
  match f.internal with
  | none => .ok .defaultVal []
  | some _ => .ok (.backendVal callSettings) [callSettings]

/-- `Firestore::batch()`. -/
def batch (f : Firestore) : OpResult ValueResult :=
  match f.internal with
  | none => .ok .defaultVal []
  | some _ => .ok (.backendVal callBatch) [callBatch]

/-- `Firestore::RunTransaction`: `updateNonNull` is whether the update
`std::function` is non-empty. -/
def runTransaction (f : Firestore) (updateNonNull : Bool) :
    OpResult FutureVal :=
  if ¬updateNonNull then
    .thrown "Transaction update callback cannot be an empty function." []
  else match f.internal with
    | none => .ok .failed []
    | some _ => .ok (.fromBackend callRunTransaction) [callRunTransaction]

/-- `Firestore::DisableNetwork`. -/
def disableNetwork (f : Firestore) : OpResult FutureVal :=
  match f.internal with
  | none => .ok .failed []
  | some _ => .ok (.fromBackend callDisableNetwork) [callDisableNetwork]

/-- `Firestore::EnableNetwork`. -/
def enableNetwork (f : Firestore) : OpResult FutureVal :=
  match f.internal with
  | none => .ok .failed []
  | some _ => .ok (.fromBackend callEnableNetwork) [callEnableNetwork]

/-- `Firestore::WaitForPendingWrites`. -/
def waitForPendingWrites (f : Firestore) : OpResult FutureVal :=
  match f.internal with
  | none => .ok .failed []
  | some _ =>
    .ok (.fromBackend callWaitForPendingWrites) [callWaitForPendingWrites]

/-- `Firestore::ClearPersistence`. -/
def clearPersistence (f : Firestore) : OpResult FutureVal :=
  match f.internal with
  | none => .ok .failed []
  | some _ => .ok (.fromBackend callClearPersistence) [callClearPersistence]

/-- `Firestore::LoadBundle(const std::string&)`. -/
def loadBundle (f : Firestore) : OpResult FutureVal :=
  match f.internal with
  | none => .ok .failed []
  | some _ => .ok (.fromBackend callLoadBundle) [callLoadBundle]

/-- `Firestore::LoadBundle` with a progress callback; `cbNonNull` is
whether the progress `std::function` is non-empty. -/
def loadBundleWithProgress (f : Firestore) (cbNonNull : Bool) :
    OpResult FutureVal :=
  if ¬cbNonNull then
    .thrown "Progress callback cannot be an empty function." []
  else match f.internal with
    | none => .ok .failed []
    | some _ =>
      .ok (.fromBackend callLoadBundleWithProgress) [callLoadBundleWithProgress]

/-- `Firestore::NamedQuery`. -/
def namedQuery (f : Firestore) : OpResult FutureVal :=
  match f.internal with
  | none => .ok .failed []
  | some _ => .ok (.fromBackend callNamedQuery) [callNamedQuery]

/-- `Firestore::AddSnapshotsInSyncListener`; `cbNonNull` is whether the
callback `std::function` is non-empty. -/
def addSnapshotsInSyncListener (f : Firestore) (cbNonNull : Bool) :
    OpResult ValueResult :=
  if ¬cbNonNull then
    .thrown "Snapshots in sync listener callback cannot be an empty function."
      []
  else match f.internal with
    | none => .ok .defaultVal []
    | some _ =>
      .ok (.backendVal callAddSnapshotsInSyncListener)
        [callAddSnapshotsInSyncListener]

/-! ### Teardown-order predicate -/

/-- Index of the first occurrence of an event in a trace. -/
def firstPos (t : List Event) (e : Event) : Option Nat :=
  match t with
  | [] => none
  | x :: xs => if x = e then some 0 else (firstPos xs e).map (· + 1)

/-- `a` leads to `b`: when `a` occurs, `b` occurs strictly later. -/
def leadsTo (t : List Event) (a b : Event) : Bool :=
  match firstPos t a with
  | none => true
  | some i =>
    match firstPos t b with
    | none => false
    | some j => i < j

/-- `b` is preceded by `a`: when `b` occurs, `a` occurs strictly earlier. -/
def precededBy (t : List Event) (b a : Event) : Bool :=
  match firstPos t b with
  | none => true
  | some j =>
    match firstPos t a with
    | none => false
    | some i => i < j

/-- The fixed teardown order of the claim: cleanup deregistration before
listener clearing, listener clearing before backend-resource release, and
registry removal after backend-handle release. -/
def teardownOrderOk (t : List Event) : Bool :=
  leadsTo t .unregisterCleanup .clearListeners
    && leadsTo t .clearListeners .releaseBackend
    && precededBy t .releaseBackend .clearListeners
    && precededBy t .eraseFromCache .releaseBackend

/-! ### Thread handle lifecycle

The `firebase::Thread` implementation (`app/src/thread.h` / `thread.cc`)
is not among the sources; only its unit tests are.  The state machine
below is modelled from the spec (section 4.1) with the observable
contract pinned down by those tests: `Join`/`Detach` misuse surfaces as a
thrown `std::system_error` carrying `std::errc::invalid_argument` (the
tests catch it and continue), while move-assigning into a running-joinable
handle and destroying a running-joinable handle abort the process. -/

/-- Modelled from the spec: lifecycle states of a `firebase::Thread`
handle (spec section 4.1), `app/src/thread.h` being absent from the
sources. -/
inductive ThreadState where
  | empty
  | runningJoinable
  | detached
  | retired
deriving DecidableEq, Repr

/-- Modelled from the spec: the error classification a misused handle
surfaces; the unit tests pin it to `std::errc::invalid_argument`. -/
inductive SysErrc where
  | invalidArgument
deriving DecidableEq, Repr

/-- Modelled from the spec: outcome of one handle operation — a normal
transition, a thrown `std::system_error`, or a process abort. -/
inductive ThreadOutcome where
  | ok (next : ThreadState)
  | threw (e : SysErrc)
  | abort
deriving DecidableEq, Repr

/-- Modelled from the spec: `Thread::Thread(callable)` yields a
running-joinable handle; the default constructor yields an empty one. -/
def threadStart : ThreadState := .runningJoinable

/-- Modelled from the spec: `Thread::Thread()` (no callable). -/
def threadDefault : ThreadState := .empty

/-- Modelled from the spec: `Thread::Join()`; succeeds only on a
running-joinable handle, otherwise throws the invalid-argument
classification (it does not abort — the unit tests catch the exception). -/
def join : ThreadState → ThreadOutcome
  | .runningJoinable => .ok .retired
  | _ => .threw .invalidArgument

/-- Modelled from the spec: `Thread::Detach()`; succeeds only on a
running-joinable handle, otherwise throws the invalid-argument
classification. -/
def detach : ThreadState → ThreadOutcome
  | .runningJoinable => .ok .detached
  | _ => .threw .invalidArgument

/-- Modelled from the spec: `Thread::Joinable()`. -/
def joinable (s : ThreadState) : Bool :=
  s = .runningJoinable

/-- Modelled from the spec: the destructor aborts on a still-joinable
handle (`WhenJoinableThreadIsDestructedShouldAbort`), otherwise returns. -/
def destruct : ThreadState → ThreadOutcome
  | .runningJoinable => .abort
  | s => .ok s

/-- Modelled from the spec: move construction; ownership transfers and the
moved-from handle becomes empty.  Returns (target, moved-from source). -/
def moveConstruct (source : ThreadState) : ThreadState × ThreadState :=
  (source, .empty)

/-- Modelled from the spec: move assignment `target = move(source)`;
aborts when the target is still running-joinable
(`MovingIntoRunningThreadShouldAbort`), otherwise transfers ownership.
The second component is the source state afterwards. -/
def moveAssign (target source : ThreadState) : ThreadOutcome × ThreadState :=
  if target = .runningJoinable then (.abort, source)
  else (.ok source, .empty)

/-- Modelled from the spec: a physical execution context, identified by a
numeric id with value semantics (`Thread::Id`). -/
structure ExecContext where
  ctxId : Nat
deriving DecidableEq, Repr

/-- Modelled from the spec: `Thread::CurrentId()` evaluated on a given
execution context. -/
def currentId (c : ExecContext) : Nat :=
  c.ctxId

/-- Modelled from the spec: `Thread::IsCurrentThread(id)` evaluated on a
given execution context. -/
def isCurrentThread (c : ExecContext) (i : Nat) : Bool :=
  i = c.ctxId

/-- Modelled from the spec: spawning a unit of execution creates a fresh
execution context, distinct from every context used so far ("ids across
distinct concurrent contexts differ"); `used` lists the ids in use. -/
def spawnContext (used : List Nat) (c : ExecContext) : ExecContext :=
  ⟨(used.foldr max c.ctxId) + 1⟩

/-! ### Helper lemmas -/

@[simp]
theorem cacheOf_some (m : List (App × Firestore)) : cacheOf (some m) = m :=
  rfl

@[simp]
theorem cacheOf_none : cacheOf none = [] :=
  rfl

theorem le_foldr_max (l : List Nat) (b : Nat) : b ≤ l.foldr max b := by
  induction l with
  | nil => exact le_refl b
  | cons x xs ih => exact le_trans ih (le_max_right x _)

theorem lookup_mem {cache : List (App × Firestore)} {a : App} {f : Firestore}
    (h : List.lookup a cache = some f) : (a, f) ∈ cache := by
  induction cache with
  | nil => simp [List.lookup] at h
  | cons kv rest ih =>
    obtain ⟨k, v⟩ := kv
    rw [List.lookup] at h
    by_cases hk : a = k
    · subst hk
      simp at h
      simp [h]
    · have hbeq : (a == k) = false := by
        simp [hk]
      rw [hbeq] at h
      exact List.mem_cons_of_mem _ (ih h)

/-! ### Claims -/

/-- C1: For every owner and factory, `Firestore::GetInstance` returns the
existing registered instance for that owner if one exists; otherwise it
constructs a new instance, and if that instance's backend is not
initialized it deletes the instance, reports
`kInitResultFailedMissingDependency` through `init_result_out`, returns
null, and leaves the registry without an entry for that owner; an
instance with `initialized` false is never registered and never
returned. -/
theorem getInstance_cache_and_missing_dependency
    (app : App) (reg : Registry) (newInit : Bool)
    (happ : app ≠ 0) (hwf : wfRegistry reg) :
    (∀ f, List.lookup app (cacheOf reg) = some f →
      getInstance app reg newInit =
        .ok (some f) .success [] (some (cacheOf reg))) ∧
    (List.lookup app (cacheOf reg) = none →
      (newInit = false →
        getInstance app reg newInit =
          .ok none .failedMissingDependency [⟨some ⟨app, false⟩⟩]
            (some (cacheOf reg))) ∧
      (newInit = true →
        getInstance app reg newInit =
          .ok (some ⟨some ⟨app, true⟩⟩) .success []
            (some ((app, (⟨some ⟨app, true⟩⟩ : Firestore)) :: cacheOf reg)))) ∧
    (∀ f iOut del reg',
      getInstance app reg newInit = .ok (some f) iOut del reg' →
      f.isInitialized = true) ∧
    (∀ ret iOut del reg',
      getInstance app reg newInit = .ok ret iOut del reg' →
      wfRegistry reg') := by
  refine ⟨?_, ?_, ?_, ?_⟩
  · intro f hf
    simp [getInstance, happ, hf]
  · intro hnone
    constructor
    · intro h
      subst h
      simp [getInstance, happ, hnone, addFirestoreToCache, checkInitialized,
        FirestoreInternal.initialized]
    · intro h
      subst h
      simp [getInstance, happ, hnone, addFirestoreToCache, checkInitialized,
        FirestoreInternal.initialized, emplace, Firestore.appOf]
  · intro f iOut del reg' h
    rcases hl : List.lookup app (cacheOf reg) with _ | g
    · rcases hb : newInit with _ | _
      · subst hb
        simp [getInstance, happ, hl, addFirestoreToCache, checkInitialized,
          FirestoreInternal.initialized] at h
      · subst hb
        simp [getInstance, happ, hl, addFirestoreToCache, checkInitialized,
          FirestoreInternal.initialized, emplace, Firestore.appOf] at h
        obtain ⟨h1, -, -, -⟩ := h
        subst h1
        simp [Firestore.isInitialized, FirestoreInternal.initialized]
    · simp [getInstance, happ, hl] at h
      obtain ⟨h1, -, -, -⟩ := h
      subst h1
      exact hwf (app, _) (lookup_mem hl)
  · intro ret iOut del reg' h
    rcases hl : List.lookup app (cacheOf reg) with _ | g
    · rcases hb : newInit with _ | _
      · subst hb
        simp [getInstance, happ, hl, addFirestoreToCache, checkInitialized,
          FirestoreInternal.initialized] at h
        obtain ⟨-, -, -, h4⟩ := h
        subst h4
        intro kv hkv
        exact hwf kv hkv
      · subst hb
        simp [getInstance, happ, hl, addFirestoreToCache, checkInitialized,
          FirestoreInternal.initialized, emplace, Firestore.appOf] at h
        obtain ⟨-, -, -, h4⟩ := h
        subst h4
        intro kv hkv
        simp [hl] at hkv
        rcases hkv with hkv | hkv
        · subst hkv
          simp [Firestore.isInitialized, FirestoreInternal.initialized]
        · exact hwf kv hkv
    · simp [getInstance, happ, hl] at h
      obtain ⟨-, -, -, h4⟩ := h
      subst h4
      intro kv hkv
      exact hwf kv hkv

/-- Witness for C1 at a concrete owner and an empty registry. -/
theorem getInstance_cache_and_missing_dependency_witness :
    getInstance 1 none true =
      .ok (some ⟨some ⟨1, true⟩⟩) .success []
        (some [(1, (⟨some ⟨1, true⟩⟩ : Firestore))]) :=
  ((getInstance_cache_and_missing_dependency 1 none true (by decide)
    (by intro kv hkv; simp [cacheOf] at hkv)).2.1 rfl).2 rfl

/-- C2 counterexample: `Firestore::Terminate` is a teardown path on which
the fixed order fails — it erases the registry entry first and issues the
backend terminate afterwards, with no cleanup deregistration, listener
clearing, or backend-handle release before the removal; `DeleteInternal`
by contrast satisfies the order on the same instance. -/
theorem terminate_breaks_teardown_order :
    teardownOrderOk
      (terminate ⟨some ⟨1, true⟩⟩
        (some [(1, (⟨some ⟨1, true⟩⟩ : Firestore))])).2.2 = false ∧
    teardownOrderOk
      (deleteInternal ⟨some ⟨1, true⟩⟩
        (some [(1, (⟨some ⟨1, true⟩⟩ : Firestore))])).2.2 = true := by
  decide

/-- C2 amended: on the teardown paths that run `DeleteInternal` — the
destructor and the owner-destruction cleanup callback — the fixed order
holds (deregistration before listener clearing, listener clearing before
backend-resource release, registry removal after backend-handle release);
explicit `Terminate`, however, removes the registry entry before the
backend terminate call and performs no deregistration, listener clearing,
or backend-handle release at this layer. -/
theorem deleteInternal_teardown_order_amended :
    ∀ (i : FirestoreInternal) (reg : Registry),
      teardownOrderOk (deleteInternal ⟨some i⟩ reg).2.2 = true ∧
      teardownOrderOk (destructor ⟨some i⟩ reg).2.2 = true ∧
      teardownOrderOk (ownerDestroyedCallback ⟨some i⟩ reg).2.2 = true ∧
      (terminate ⟨some i⟩ reg).2.2 =
        [Event.eraseFromCache, Event.backendTerminate] := by
  intro i reg
  rcases i with ⟨a, b⟩
  cases b
  · exact ⟨rfl, rfl, rfl, rfl⟩
  · exact ⟨rfl, rfl, rfl, rfl⟩

/-- C3: every asynchronous public operation invoked on a client instance
whose internal state has been released returns an already-failed future
synchronously, with no backend call issued. -/
theorem released_instance_async_ops_fail_fast (f : Firestore)
    (h : f.internal = none) :
    runTransaction f true = .ok .failed [] ∧
    disableNetwork f = .ok .failed [] ∧
    enableNetwork f = .ok .failed [] ∧
    waitForPendingWrites f = .ok .failed [] ∧
    clearPersistence f = .ok .failed [] ∧
    loadBundle f = .ok .failed [] ∧
    loadBundleWithProgress f true = .ok .failed [] ∧
    namedQuery f = .ok .failed [] := by
  rcases f with ⟨fi⟩
  obtain rfl : fi = none := h
  exact ⟨rfl, rfl, rfl, rfl, rfl, rfl, rfl, rfl⟩

/-- Witness for C3 on the released instance. -/
theorem released_instance_async_ops_fail_fast_witness :
    runTransaction ⟨none⟩ true = .ok .failed [] ∧
    disableNetwork ⟨none⟩ = .ok .failed [] ∧
    enableNetwork ⟨none⟩ = .ok .failed [] ∧
    waitForPendingWrites ⟨none⟩ = .ok .failed [] ∧
    clearPersistence ⟨none⟩ = .ok .failed [] ∧
    loadBundle ⟨none⟩ = .ok .failed [] ∧
    loadBundleWithProgress ⟨none⟩ true = .ok .failed [] ∧
    namedQuery ⟨none⟩ = .ok .failed [] :=
  released_instance_async_ops_fail_fast ⟨none⟩ rfl

/-- C4: when a registry entry already exists for an owner,
`Firestore::CreateFirestore` fails a fatal hard assertion
(double registration) while `Firestore::GetInstance` gracefully returns
the cached instance. -/
theorem createFirestore_getInstance_asymmetry
    (app : App) (reg : Registry) (f : Firestore) (i : FirestoreInternal)
    (happ : app ≠ 0) (hf : List.lookup app (cacheOf reg) = some f) :
    createFirestore app (some i) reg =
      .fatal "Firestore must not be created already" ∧
    ∀ b, getInstance app reg b =
      .ok (some f) .success [] (some (cacheOf reg)) := by
  constructor
  · simp [createFirestore, happ, hf]
  · intro b
    simp [getInstance, happ, hf]

/-- Witness for C4 at a concrete owner with a cached instance. -/
theorem createFirestore_getInstance_asymmetry_witness :
    createFirestore 1 (some ⟨1, true⟩)
        (some [(1, (⟨some ⟨1, true⟩⟩ : Firestore))]) =
      .fatal "Firestore must not be created already" ∧
    getInstance 1 (some [(1, (⟨some ⟨1, true⟩⟩ : Firestore))]) true =
      .ok (some ⟨some ⟨1, true⟩⟩) .success []
        (some [(1, (⟨some ⟨1, true⟩⟩ : Firestore))]) :=
  ⟨(createFirestore_getInstance_asymmetry 1
      (some [(1, ⟨some ⟨1, true⟩⟩)]) ⟨some ⟨1, true⟩⟩ ⟨1, true⟩
      (by decide) (by decide)).1,
   (createFirestore_getInstance_asymmetry 1
      (some [(1, ⟨some ⟨1, true⟩⟩)]) ⟨some ⟨1, true⟩⟩ ⟨1, true⟩
      (by decide) (by decide)).2 true⟩

/-- C5 counterexample: the erase performed by `Firestore::Terminate`
leaves the registry's backing map allocated even when the erase left it
empty — the global pointer still holds an empty map rather than being
reset. -/
theorem terminate_retains_empty_cache_storage :
    (terminate ⟨some ⟨1, true⟩⟩
        (some [(1, (⟨some ⟨1, true⟩⟩ : Firestore))])).2.1 = some [] ∧
    (terminate ⟨some ⟨1, true⟩⟩
        (some [(1, (⟨some ⟨1, true⟩⟩ : Firestore))])).2.1 ≠ none := by
  decide

/-- C5 amended: the erase performed by `DeleteInternal` releases the
backing storage exactly when it leaves the registry empty, and the
storage is re-created lazily on the next `GetInstance`; the erase
performed by `Terminate` never releases the storage. -/
theorem deleteInternal_releases_empty_cache_amended
    (i : FirestoreInternal) (reg : Registry) :
    (eraseKey (cacheOf reg) i.app = [] →
      (deleteInternal ⟨some i⟩ reg).2.1 = none) ∧
    (eraseKey (cacheOf reg) i.app ≠ [] →
      (deleteInternal ⟨some i⟩ reg).2.1 =
        some (eraseKey (cacheOf reg) i.app)) ∧
    (terminate ⟨some i⟩ reg).2.1 = some (eraseKey (cacheOf reg) i.app) ∧
    (∀ a : App, a ≠ 0 →
      getInstance a none true =
        .ok (some ⟨some ⟨a, true⟩⟩) .success []
          (some [(a, (⟨some ⟨a, true⟩⟩ : Firestore))])) := by
  refine ⟨?_, ?_, ?_, ?_⟩
  · intro h
    simp [deleteInternal, h]
  · intro h
    simp [deleteInternal, h]
  · simp [terminate]
  · intro a ha
    simp [getInstance, ha, addFirestoreToCache, checkInitialized,
      FirestoreInternal.initialized, emplace, Firestore.appOf]

/-- Witness for the amended C5: erasing the last entry through
`DeleteInternal` resets the global map pointer. -/
theorem deleteInternal_releases_empty_cache_amended_witness :
    (deleteInternal ⟨some ⟨1, true⟩⟩
        (some [(1, (⟨some ⟨1, true⟩⟩ : Firestore))])).2.1 = none ∧
    (terminate ⟨some ⟨1, true⟩⟩
        (some [(1, (⟨some ⟨1, true⟩⟩ : Firestore))])).2.1 =
      some (eraseKey [(1, (⟨some ⟨1, true⟩⟩ : Firestore))] 1) :=
  ⟨(deleteInternal_releases_empty_cache_amended ⟨1, true⟩
      (some [(1, ⟨some ⟨1, true⟩⟩)])).1 (by decide),
   (deleteInternal_releases_empty_cache_amended ⟨1, true⟩
      (some [(1, ⟨some ⟨1, true⟩⟩)])).2.2.1⟩

/-- C6 counterexample: `Join` on an empty handle fails with the
invalid-argument classification as a thrown, catchable system error — the
unit tests catch it and continue — not by terminating the process. -/
theorem join_misuse_throws_not_abort :
    join threadDefault = .threw .invalidArgument ∧
    join threadDefault ≠ .abort := by
  decide

/-- C6 amended: `Join` or `Detach` on an empty handle, `Join` after a
prior `Join` or `Detach`, and `Detach` after a prior `Detach` or `Join`,
all fail with the invalid-argument (InvalidOperation) classification
raised as a catchable `std::system_error`; the process terminates only
when the caller lets the exception propagate — misuse of `Join`/`Detach`
never aborts unconditionally (only move-assignment into a running
joinable handle and destruction of one do). -/
theorem thread_misuse_invalid_argument_amended :
    join .empty = .threw .invalidArgument ∧
    detach .empty = .threw .invalidArgument ∧
    (join .runningJoinable = .ok .retired ∧
      join .retired = .threw .invalidArgument) ∧
    (detach .runningJoinable = .ok .detached ∧
      detach .detached = .threw .invalidArgument) ∧
    join .detached = .threw .invalidArgument ∧
    detach .retired = .threw .invalidArgument ∧
    (∀ s, join s ≠ .abort ∧ detach s ≠ .abort) := by
  refine ⟨rfl, rfl, ⟨rfl, rfl⟩, ⟨rfl, rfl⟩, rfl, rfl, ?_⟩
  intro s
  cases s <;> exact ⟨by decide, by decide⟩

/-- C7: move construction and move assignment transfer ownership (the
moved-from handle becomes empty and non-joinable, the target becomes
running-joinable); move-assigning any value into a running-joinable
handle aborts the process, as does destructing a running-joinable
handle. -/
theorem thread_move_transfer_and_abort
    (tgt : ThreadState) (htgt : tgt ≠ .runningJoinable) :
    (moveAssign tgt threadStart = (.ok .runningJoinable, .empty) ∧
      joinable .runningJoinable = true ∧ joinable .empty = false) ∧
    moveConstruct threadStart = (.runningJoinable, .empty) ∧
    (∀ src, moveAssign .runningJoinable src = (.abort, src)) ∧
    destruct .runningJoinable = .abort := by
  refine ⟨⟨?_, rfl, rfl⟩, rfl, ?_, rfl⟩
  · simp [moveAssign, threadStart, htgt]
  · intro src
    simp [moveAssign]

/-- Witness for C7 with an empty target handle. -/
theorem thread_move_transfer_and_abort_witness :
    moveAssign .empty threadStart = (.ok .runningJoinable, .empty) ∧
    moveAssign .runningJoinable .empty = (.abort, .empty) :=
  ⟨(thread_move_transfer_and_abort .empty (by decide)).1.1,
   (thread_move_transfer_and_abort .empty (by decide)).2.2.1 .empty⟩

/-- C9: thread identity has value semantics — `CurrentId` evaluated twice
on one execution context yields equal ids, `IsCurrentThread` on an id
just captured in the same context returns true, and an id captured inside
a freshly spawned unit of execution, checked from the spawning context,
returns false. -/
theorem thread_identity_value_semantics (c : ExecContext) (used : List Nat) :
    currentId c = currentId c ∧
    isCurrentThread c (currentId c) = true ∧
    isCurrentThread c (currentId (spawnContext used c)) = false := by
  refine ⟨rfl, ?_, ?_⟩
  · simp [isCurrentThread, currentId]
  · have h := le_foldr_max used c.ctxId
    simp [isCurrentThread, currentId, spawnContext]
    omega

/-- C8 counterexample: `Firestore::CollectionGroup(const std::string&)`
is a public entry point taking a required path argument, yet an empty
collection ID passed to it on a live instance is not surfaced as an
`InvalidArgument` error — it is forwarded to the backend unvalidated,
issuing a backend call. -/
theorem collection_group_string_accepts_empty :
    collectionGroupString ⟨some ⟨1, true⟩⟩ "" =
      .ok (.backendVal callCollectionGroup) [callCollectionGroup] := by
  decide

/-- C8 amended: every public entry point taking a required path,
callback or owner argument — except the `std::string` overload of
`CollectionGroup`, which performs no validation and forwards the empty
ID to the backend — rejects a null or empty value with an
`InvalidArgument` throw at the call site, before any backend call is
issued and with the registry untouched. -/
theorem invalid_argument_rejected_before_mutation :
    (∀ f : Firestore,
      collection f none = .thrown "Collection path cannot be null." [] ∧
      collection f (some "") =
        .thrown "Collection path cannot be empty." [] ∧
      document f none = .thrown "Document path cannot be null." [] ∧
      document f (some "") = .thrown "Document path cannot be empty." [] ∧
      collectionGroup f none = .thrown "Collection ID cannot be null." [] ∧
      collectionGroup f (some "") =
        .thrown "Collection ID cannot be empty." [] ∧
      runTransaction f false =
        .thrown "Transaction update callback cannot be an empty function."
          [] ∧
      addSnapshotsInSyncListener f false =
        .thrown
          "Snapshots in sync listener callback cannot be an empty function."
          [] ∧
      loadBundleWithProgress f false =
        .thrown "Progress callback cannot be an empty function." []) ∧
    (∀ (reg : Registry) (b : Bool), getInstance 0 reg b = .thrown reg) ∧
    (∀ i : FirestoreInternal,
      collectionGroupString ⟨some i⟩ "" =
        .ok (.backendVal callCollectionGroup) [callCollectionGroup]) := by
  refine ⟨?_, ?_, ?_⟩
  · intro f
    exact ⟨rfl, rfl, rfl, rfl, rfl, rfl, rfl, rfl, rfl⟩
  · intro reg b
    rfl
  · intro i
    rfl

/-- C10: teardown is idempotent and the public surface stays total after
it — `DeleteInternal` on an instance whose internal state is already
released returns at once, leaving the instance, the registry and the
event trace untouched, and every public operation on such an instance
returns a default-constructed value or an already-failed future without
any backend call. -/
theorem teardown_idempotent_and_total (f : Firestore) (reg : Registry)
    (h : f.internal = none) :
    deleteInternal f reg = (f, reg, []) ∧
    f.appOf = 0 ∧
    settingsOp f = .ok .defaultVal [] ∧
    batch f = .ok .defaultVal [] ∧
    (∀ p : String, p ≠ "" → collection f (some p) = .ok .defaultVal []) ∧
    (∀ p : String, p ≠ "" → document f (some p) = .ok .defaultVal []) ∧
    (∀ s : String, s ≠ "" →
      collectionGroup f (some s) = .ok .defaultVal []) ∧
    runTransaction f true = .ok .failed [] ∧
    terminate f reg = (.failed, reg, []) ∧
    disableNetwork f = .ok .failed [] ∧
    enableNetwork f = .ok .failed [] ∧
    waitForPendingWrites f = .ok .failed [] ∧
    clearPersistence f = .ok .failed [] ∧
    loadBundle f = .ok .failed [] ∧
    loadBundleWithProgress f true = .ok .failed [] ∧
    namedQuery f = .ok .failed [] ∧
    addSnapshotsInSyncListener f true = .ok .defaultVal [] := by
  rcases f with ⟨fi⟩
  obtain rfl : fi = none := h
  refine ⟨rfl, rfl, rfl, rfl, ?_, ?_, ?_, rfl, rfl, rfl, rfl, rfl, rfl,
    rfl, rfl, rfl, rfl⟩
  · intro p hp
    simp [collection, hp]
  · intro p hp
    simp [document, hp]
  · intro s hs
    simp [collectionGroup, hs]

/-- Witness for C10 on the released instance with an empty registry. -/
theorem teardown_idempotent_and_total_witness :
    deleteInternal ⟨none⟩ none = (⟨none⟩, none, []) ∧
    collection ⟨none⟩ (some "users") = .ok .defaultVal [] ∧
    terminate ⟨none⟩ none = (.failed, none, []) :=
  ⟨(teardown_idempotent_and_total ⟨none⟩ none rfl).1,
   (teardown_idempotent_and_total ⟨none⟩ none rfl).2.2.2.2.1 "users"
     (by decide),
   (teardown_idempotent_and_total ⟨none⟩ none rfl).2.2.2.2.2.2.2.2.1⟩

end FirebaseCore
